import Mathlib

/-
Verification of the pettingzoo distributed-configuration engine
(src/pettingzoo/config.py) against its natural-language specification.

The Python module is shallowly embedded:
  * Python `str.split(sep)` / `sep.join(parts)` (single-character separators
    only, which is all the module uses) become `pySplit` / `pyJoin`.
  * The ZooKeeper connection, the YAML parser and the knewton file-config
    lookup are external collaborators; they are modelled as an `Env` of
    oracle functions.  `random.choice` is modelled by an explicit `choice`
    index, quantified over in the theorems.
  * The mutable object state (`self.cache`, `self.callbacks`,
    `self.children`) becomes the explicit record `DCState`, threaded
    through every operation; callback handles are modelled by `Nat`
    identities and Python's `set.add` by insert-if-absent.
  * Every store / fallback / callback interaction is recorded in an event
    trace so that claims about "no store query", "watch armed once" and
    "every callback invoked" are statable.
  * Exceptions (`fetch_knewton_config` failing, malformed paths) become
    `Except Unit`.  Python truthiness of cached values (`if cached:`) is
    modelled by explicit `truthy` functions.
-/

deriving instance DecidableEq for Except

namespace PettingZoo

/-- Python `s.split(sep)` for a single-character separator, on character
lists: `"".split` gives `[""]`, separators at the ends give empty pieces,
exactly as in Python. -/
def splitChars (sep : Char) : List Char → List (List Char)
  | [] => [[]]
  | c :: cs =>
    let r := splitChars sep cs
    if c = sep then [] :: r
    else
      match r with
      | [] => [[c]]
      | h :: t => (c :: h) :: t

/-- Python `s.split(sep)` on strings (single-character separator). -/
def pySplit (s : String) (sep : Char) : List String :=
  (splitChars sep s.toList).map (fun cs => String.mk cs)

/-- Python `sep.join(parts)`. -/
def pyJoin (sep : String) (parts : List String) : String :=
  String.intercalate sep parts

/-- `CONFIG_PATH = "/config"` from src/pettingzoo/config.py. -/
def CONFIG_PATH : String := "/config"

/-- `_znode_path(service_class, service_name)` (no ip_address):
`"/".join([CONFIG_PATH, service_class, service_name])`. -/
def znodePath (serviceClass serviceName : String) : String :=
  pyJoin "/" [CONFIG_PATH, serviceClass, serviceName]

/-- `_znode_path(service_class, service_name, ip_address)` with an
ip_address appended, as used by the registration helpers. -/
def znodePathWithIp (serviceClass serviceName ipAddress : String) : String :=
  pyJoin "/" [CONFIG_PATH, serviceClass, serviceName, ipAddress]

/-- `_znode_to_class_and_name(znode)`: split on `"/"`, `pop(0)` the first
piece, return `(znode[0], znode[1])` of what is left.  A list too short
for `pop` or for the two indexings raises in Python; this is the
`Except.error` case. -/
def znodeToClassAndName (znode : String) : Except Unit (String × String) :=
  match pySplit znode '/' with
  | [] => Except.error ()
  | _ :: rest =>
    match rest with
    | a :: b :: _ => Except.ok (a, b)
    | _ => Except.error ()

/-- `_config_path_to_class_and_name(path)`: `path.split(".")[0]`, then
split on `"/"`; if at least two parts remain, return `(parts[-2],
parts[-1])`, else raise ("Config path cannot be parsed"). -/
def configPathToClassAndName (path : String) : Except Unit (String × String) :=
  let stem := (pySplit path '.').headD ""
  let parts := pySplit stem '/'
  if 2 ≤ parts.length then
    Except.ok (parts.getD (parts.length - 2) "", parts.getD (parts.length - 1) "")
  else
    Except.error ()

/-- A parsed configuration payload (the result of `yaml.load` or of
`fetch_knewton_config`).  `cempty` stands for a falsy parsed object such
as an empty mapping, `cval s` for a truthy opaque payload. -/
inductive Config where
  | cempty : Config
  | cval : String → Config
deriving DecidableEq, Repr

/-- Python truthiness of a parsed payload. -/
def Config.truthy : Config → Bool
  | .cempty => false
  | .cval _ => true

/-- A value stored in `self.cache`.  The cache is heterogeneous in Python:
`single sel c` is the tuple `(selectee, parsed)` stored by the
single-select znode loader, `fileSingle c` is the raw (unwrapped)
fallback object stored by `DistributedConfig.load_config`, and `multi rs`
is the list of `(child, parsed)` tuples stored by the multi-select paths
(including the `[('file', cfg)]` fallback wrapping). -/
inductive CacheVal where
  | single : String → Config → CacheVal
  | fileSingle : Config → CacheVal
  | multi : List (String × Config) → CacheVal
deriving DecidableEq, Repr

/-- Python truthiness of a cached value: a 2-tuple is always truthy, a raw
fallback object has its own truthiness, a list is truthy iff non-empty. -/
def CacheVal.truthy : CacheVal → Bool
  | .single _ _ => true
  | .fileSingle c => c.truthy
  | .multi rs => !rs.isEmpty

/-- Truthiness of `self.cache.get(path, None)` / of the znode-loader
result: `None` is falsy. -/
def optTruthy : Option CacheVal → Bool
  | none => false
  | some v => v.truthy

/-- Observable interactions of the engine: ZooKeeper calls, the file
fallback, and user-callback invocations (with the value handed to the
callback). -/
inductive Event where
  | evExists : String → Event
  | evChildren : String → Event
  | evArmWatch : String → Event
  | evGet : String → Event
  | evFallback : String → Event
  | evCallback : Nat → String → Option CacheVal → Event
deriving DecidableEq, Repr

/-- The external collaborators: the ZooKeeper tree (`exists`, `children`,
`get`), the YAML parser, and `knewton.config.fetch_knewton_config`
(which may fail). -/
structure Env where
  zexists : String → Bool
  zchildren : String → List String
  zget : String → String
  parse : String → Config
  fileConfig : String → Except Unit Config

/-- The mutable state of a `DistributedConfig` /
`DistributedMultiConfig` instance: `self.cache`, `self.callbacks`
(per-path sets of callback identities) and `self.children` (the stored
children/watch handles, written but never read back by the code). -/
structure DCState where
  cache : List (String × CacheVal)
  callbacks : List (String × List Nat)
  childrenHandles : List (String × List String)
deriving DecidableEq, Repr

/-- The freshly constructed state (`__init__`). -/
def initState : DCState := { cache := [], callbacks := [], childrenHandles := [] }

/-- Association-list lookup (Python `dict.get(k, None)`). -/
def assocLookup {α : Type} (m : List (String × α)) (k : String) : Option α :=
  match m with
  | [] => none
  | (k₁, v) :: rest => if k₁ = k then some v else assocLookup rest k

/-- Association-list lookup with default (Python `dict.get(k, d)`). -/
def assocLookupD {α : Type} (m : List (String × α)) (k : String) (d : α) : α :=
  (assocLookup m k).getD d

/-- Association-list update (Python `dict[k] = v`). -/
def assocSet {α : Type} (m : List (String × α)) (k : String) (v : α) : List (String × α) :=
  match m with
  | [] => [(k, v)]
  | (k₁, v₁) :: rest => if k₁ = k then (k, v) :: rest else (k₁, v₁) :: assocSet rest k v

/-- Python `set.add` on a list kept duplicate-free: inserting an element
already present leaves the set unchanged. -/
def setAdd (l : List Nat) (c : Nat) : List Nat :=
  if c ∈ l then l else l ++ [c]

/-- `_get_config_from_cache(znode_path, callback)`: if a callback is
given, `self.callbacks.setdefault(znode_path, set()).add(callback)`;
then return `self.cache.get(znode_path, None)`. -/
def getConfigFromCache (st : DCState) (path : String) (callback : Option Nat) :
    DCState × Option CacheVal :=
  let st1 :=
    match callback with
    | some c =>
      { st with callbacks := assocSet st.callbacks path (setAdd (assocLookupD st.callbacks path []) c) }
    | none => st
  (st1, assocLookup st1.cache path)

/-- `DistributedConfig.__load_znodes(path, add_callback)`: if the path
exists, enumerate its children; when `add_callback` is true, arm the
child watch (`children(self._child_callback)`) and record the handle in
`self.children[path]`; if there are children, pick one (`random.choice`,
modelled by index `choice % len`), fetch and parse its payload, store
the `(selectee, parsed)` tuple in the cache and return it.  Returns the
updated state, the event trace, and the result (`none` for Python's
implicit `None`). -/
def loadZnodesS (env : Env) (st : DCState) (path : String) (addCallback : Bool)
    (choice : Nat) : DCState × List Event × Option CacheVal :=
  if env.zexists path then
    let children := env.zchildren path
    let st1 :=
      if addCallback then
        { st with childrenHandles := assocSet st.childrenHandles path children }
      else st
    let evs1 := [Event.evExists path, Event.evChildren path] ++
      (if addCallback then [Event.evArmWatch path] else [])
    if 0 < children.length then
      let selectee := children.getD (choice % children.length) ""
      let znode := path ++ "/" ++ selectee
      let config := CacheVal.single selectee (env.parse (env.zget znode))
      let st2 := { st1 with cache := assocSet st1.cache path config }
      (st2, evs1 ++ [Event.evGet znode], some config)
    else
      (st1, evs1, none)
  else
    (st, [Event.evExists path], none)

/-- `DistributedConfig.load_config(service_class, service_name,
callback)`: compute the znode path, consult the cache (registering the
callback), return a truthy cached value immediately; otherwise load from
the store; otherwise fall back to `_load_file_config` (the raw, unwrapped
object), store it in the cache and return it.  A failing fallback is the
`Except.error` outcome, with all state mutations made so far kept (Python
mutates in place before raising). -/
def loadConfigS (env : Env) (st : DCState) (serviceClass serviceName : String)
    (callback : Option Nat) (choice : Nat) :
    DCState × List Event × Except Unit CacheVal :=
  let path := znodePath serviceClass serviceName
  let r := getConfigFromCache st path callback
  if optTruthy r.2 then
    (r.1, [], Except.ok (r.2.getD (CacheVal.fileSingle Config.cempty)))
  else
    let l := loadZnodesS env r.1 path true choice
    if optTruthy l.2.2 then
      (l.1, l.2.1, Except.ok (l.2.2.getD (CacheVal.fileSingle Config.cempty)))
    else
      let key := serviceClass ++ "/" ++ serviceName
      match env.fileConfig key with
      | Except.error _ => (l.1, l.2.1 ++ [Event.evFallback key], Except.error ())
      | Except.ok c =>
        let v := CacheVal.fileSingle c
        ({ l.1 with cache := assocSet l.1.cache path v },
         l.2.1 ++ [Event.evFallback key], Except.ok v)

/-- `load_config_via_path(path, callback)`: decode a knewton config path
and delegate to `load_config`. -/
def loadConfigViaPath (env : Env) (st : DCState) (path : String)
    (callback : Option Nat) (choice : Nat) :
    Except Unit (DCState × List Event × Except Unit CacheVal) :=
  match configPathToClassAndName path with
  | Except.error e => Except.error e
  | Except.ok (serviceClass, serviceName) =>
    Except.ok (loadConfigS env st serviceClass serviceName callback choice)

/-- `DistributedConfig._child_callback(children)`: decode the watched
path (raising on a malformed one, before any dispatch), re-load the
znodes with `add_callback=False`, then invoke every callback in
`self.callbacks.get(path, [])` with `(path, config)`.  Because Python
name-mangles `self.__load_znodes` inside the `DistributedConfig` class
body to `_DistributedConfig__load_znodes`, this method runs the
single-select loader even on a `DistributedMultiConfig` instance. -/
def childCallback (env : Env) (st : DCState) (path : String) (choice : Nat) :
    DCState × List Event × Except Unit Unit :=
  match znodeToClassAndName path with
  | Except.error _ => (st, [], Except.error ())
  | Except.ok _ =>
    let l := loadZnodesS env st path false choice
    let cbs := assocLookupD l.1.callbacks path []
    (l.1, l.2.1 ++ cbs.map (fun c => Event.evCallback c path l.2.2), Except.ok ())

/-- `DistributedMultiConfig.__load_znodes(path, add_callback)`: same
shape as the single variant but fetches and parses every child in store
order, stores the list of `(child, parsed)` tuples and returns it. -/
def loadZnodesM (env : Env) (st : DCState) (path : String) (addCallback : Bool) :
    DCState × List Event × Option CacheVal :=
  if env.zexists path then
    let children := env.zchildren path
    let st1 :=
      if addCallback then
        { st with childrenHandles := assocSet st.childrenHandles path children }
      else st
    let evs1 := [Event.evExists path, Event.evChildren path] ++
      (if addCallback then [Event.evArmWatch path] else [])
    if 0 < children.length then
      let config := CacheVal.multi
        (children.map (fun c => (c, env.parse (env.zget (path ++ "/" ++ c)))))
      let st2 := { st1 with cache := assocSet st1.cache path config }
      (st2, evs1 ++ children.map (fun c => Event.evGet (path ++ "/" ++ c)), some config)
    else
      (st1, evs1, none)
  else
    (st, [Event.evExists path], none)

/-- `DistributedMultiConfig.load_config`: as the single variant, but the
store result is the full child list and the fallback is wrapped as
`[('file', cfg)]` before being cached and returned. -/
def loadConfigM (env : Env) (st : DCState) (serviceClass serviceName : String)
    (callback : Option Nat) :
    DCState × List Event × Except Unit CacheVal :=
  let path := znodePath serviceClass serviceName
  let r := getConfigFromCache st path callback
  if optTruthy r.2 then
    (r.1, [], Except.ok (r.2.getD (CacheVal.fileSingle Config.cempty)))
  else
    let l := loadZnodesM env r.1 path true
    if optTruthy l.2.2 then
      (l.1, l.2.1, Except.ok (l.2.2.getD (CacheVal.fileSingle Config.cempty)))
    else
      let key := serviceClass ++ "/" ++ serviceName
      match env.fileConfig key with
      | Except.error _ => (l.1, l.2.1 ++ [Event.evFallback key], Except.error ())
      | Except.ok c =>
        let v := CacheVal.multi [("file", c)]
        ({ l.1 with cache := assocSet l.1.cache path v },
         l.2.1 ++ [Event.evFallback key], Except.ok v)

/-- The last two segments of a segment list as a `(service_class,
service_name)` pair, failing when fewer than two segments exist. -/
def lastTwo (parts : List String) : Except Unit (String × String) :=
  match parts.reverse with
  | b :: a :: _ => Except.ok (a, b)
  | _ => Except.error ()

/-- Modelled from the spec: `legacy_path_to_key` is described as
"strips a trailing extension if present, splits on separator, takes the
last two segments".  Stripping a trailing extension removes the part
from the last `'.'` onward (only), leaving earlier dots intact.  This
definition follows the spec's words and is compared against the source
function `configPathToClassAndName`. -/
def legacyPathToKeySpec (path : String) : Except Unit (String × String) :=
  let pieces := pySplit path '.'
  let stripped := if pieces.length ≤ 1 then path else pyJoin "." pieces.dropLast
  lastTwo (pySplit stripped '/')

/-- Amended description of `_config_path_to_class_and_name`: the code
keeps only the part of the path before the FIRST dot (not merely
dropping a trailing extension), then splits on `'/'` and takes the last
two segments, failing when fewer than two remain. -/
def legacyPathToKeyAmended (path : String) : Except Unit (String × String) :=
  let stem := String.mk (path.toList.takeWhile (fun ch => ch != '.'))
  lastTwo (pySplit stem '/')

/-- The provider child the single-select loader picks: the source's
`random.choice(children)`, with the random draw modelled by the index
`choice % len(children)`. -/
def pickChild (env : Env) (path : String) (choice : Nat) : String :=
  (env.zchildren path).getD (choice % (env.zchildren path).length) ""

/-- Recognizer for the watch-arming event on a given path. -/
def isArm (path : String) : Event → Bool
  | .evArmWatch q => q == path
  | _ => false

/-- Number of watch-arming events for a path in a trace. -/
def armEvents (evs : List Event) (path : String) : Nat :=
  evs.countP (isArm path)

/-- Recognizer for user-callback invocation events. -/
def isCallbackEvent : Event → Bool
  | .evCallback _ _ _ => true
  | _ => false

/-- The user-callback invocations of a trace, in order. -/
def callbackEvents (evs : List Event) : List Event :=
  evs.filter isCallbackEvent

/-- The store path for the service key `("databases", "x")`, used by the
concrete scenarios below. -/
def samplePath : String := znodePath "databases" "x"

/-- Store with two providers registered under `samplePath`; each znode's
raw payload is its own path, and parsing tags the raw text, so payloads
stay distinguishable.  The file fallback fails. -/
def envTwoProviders : Env :=
  { zexists := fun q => q == samplePath
    zchildren := fun q => if q == samplePath then ["10.0.0.1", "10.0.0.2"] else []
    zget := fun q => q
    parse := fun s => Config.cval s
    fileConfig := fun _ => Except.error () }

/-- A `DistributedMultiConfig` instance state that has already resolved
`samplePath` to the full provider list and has callback `7` registered. -/
def stMulti : DCState :=
  { cache := [(samplePath,
      CacheVal.multi [("10.0.0.1", Config.cval "old1"), ("10.0.0.2", Config.cval "old2")])]
    callbacks := [(samplePath, [7])]
    childrenHandles := [(samplePath, ["10.0.0.1", "10.0.0.2"])] }

/-- Store where `samplePath` exists but all provider znodes have
vanished (no children); the file fallback fails. -/
def envVanished : Env :=
  { zexists := fun q => q == samplePath
    zchildren := fun _ => []
    zget := fun q => q
    parse := fun s => Config.cval s
    fileConfig := fun _ => Except.error () }

/-- Store where `samplePath` does not exist and the file fallback yields
a falsy parsed object (e.g. an empty mapping in the config file). -/
def envEmptyFile : Env :=
  { zexists := fun _ => false
    zchildren := fun _ => []
    zget := fun q => q
    parse := fun s => Config.cval s
    fileConfig := fun _ => Except.ok Config.cempty }

/-- Store where `samplePath` does not exist and the file fallback yields
a truthy parsed object. -/
def envFileOk : Env :=
  { zexists := fun _ => false
    zchildren := fun _ => []
    zget := fun q => q
    parse := fun s => Config.cval s
    fileConfig := fun k => Except.ok (Config.cval k) }

/-- State whose cache already holds a truthy value for `samplePath`. -/
def stCachedTruthy : DCState :=
  { cache := [(samplePath, CacheVal.single "10.0.0.1" (Config.cval "y"))]
    callbacks := []
    childrenHandles := [] }

theorem assocLookup_assocSet_self {α : Type} (m : List (String × α)) (k : String) (v : α) :
    assocLookup (assocSet m k v) k = some v := by
  induction m with
  | nil => simp [assocSet, assocLookup]
  | cons p rest ih =>
    obtain ⟨k₁, v₁⟩ := p
    by_cases h : k₁ = k
    · subst h
      simp [assocSet, assocLookup]
    · simp [assocSet, assocLookup, h, ih]

theorem assocSet_assocSet {α : Type} (m : List (String × α)) (k : String) (v w : α) :
    assocSet (assocSet m k v) k w = assocSet m k w := by
  induction m with
  | nil => simp [assocSet]
  | cons p rest ih =>
    obtain ⟨k₁, v₁⟩ := p
    by_cases h : k₁ = k
    · subst h
      simp [assocSet]
    · simp [assocSet, h, ih]

theorem setAdd_mem (l : List Nat) (c : Nat) : c ∈ setAdd l c := by
  unfold setAdd
  split
  · assumption
  · simp

theorem setAdd_idem (l : List Nat) (c : Nat) : setAdd (setAdd l c) c = setAdd l c := by
  rw [setAdd, if_pos (setAdd_mem l c)]

theorem splitChars_ne_nil (sep : Char) (l : List Char) : splitChars sep l ≠ [] := by
  induction l with
  | nil => simp [splitChars]
  | cons c cs ih =>
    simp only [splitChars]
    split
    · simp
    · split <;> simp

theorem splitChars_headD (sep : Char) (l : List Char) :
    (splitChars sep l).headD [] = l.takeWhile (fun c => c != sep) := by
  induction l with
  | nil => simp [splitChars]
  | cons c cs ih =>
    by_cases h : c = sep
    · subst h
      simp [splitChars, List.takeWhile_cons]
    · cases hr : splitChars sep cs with
      | nil => exact absurd hr (splitChars_ne_nil sep cs)
      | cons hd tl =>
        rw [hr] at ih
        simp only [List.headD_cons] at ih
        simp [splitChars, h, hr, List.takeWhile_cons, ih]

theorem pySplit_headD (s : String) (sep : Char) :
    (pySplit s sep).headD "" = String.mk (s.toList.takeWhile (fun c => c != sep)) := by
  unfold pySplit
  cases hr : splitChars sep s.toList with
  | nil => exact absurd hr (splitChars_ne_nil sep s.toList)
  | cons hd tl =>
    have hh := splitChars_headD sep s.toList
    rw [hr] at hh
    simp only [List.headD_cons] at hh
    simp [hh]

theorem lastTwo_eq_getD (parts : List String) :
    (if 2 ≤ parts.length then
        Except.ok (parts.getD (parts.length - 2) "", parts.getD (parts.length - 1) "")
      else (Except.error () : Except Unit (String × String))) = lastTwo parts := by
  unfold lastTwo
  rcases hr : parts.reverse with _ | ⟨b, _ | ⟨a, t⟩⟩
  · have hp : parts = [] := by
      have h0 := congrArg List.reverse hr
      simpa using h0
    subst hp
    simp
  · have hp : parts = [b] := by
      have h0 := congrArg List.reverse hr
      simpa using h0
    subst hp
    simp
  · have hp : parts = t.reverse ++ [a, b] := by
      have h0 := congrArg List.reverse hr
      simpa using h0
    subst hp
    have hlen : (t.reverse ++ [a, b]).length = t.length + 2 := by simp
    rw [if_pos (by omega)]
    have h2 : (t.reverse ++ [a, b]).length - 2 = t.length := by simp
    have h1 : (t.reverse ++ [a, b]).length - 1 = t.length + 1 := by simp
    rw [h2, h1]
    have ga : (t.reverse ++ [a, b]).getD t.length "" = a := by
      rw [List.getD_eq_getElem?_getD, List.getElem?_append_right (by simp)]
      simp
    have gb : (t.reverse ++ [a, b]).getD (t.length + 1) "" = b := by
      rw [List.getD_eq_getElem?_getD, List.getElem?_append_right (by simp)]
      simp
    rw [ga, gb]

theorem getConfigFromCache_cache (st : DCState) (p : String) (cb : Option Nat) :
    (getConfigFromCache st p cb).1.cache = st.cache := by
  cases cb <;> simp [getConfigFromCache]

theorem getConfigFromCache_lookup (st : DCState) (p : String) (cb : Option Nat) :
    (getConfigFromCache st p cb).2 = assocLookup st.cache p := by
  cases cb <;> simp [getConfigFromCache]

theorem getConfigFromCache_subscribed (st : DCState) (p : String) (c : Nat) :
    c ∈ assocLookupD (getConfigFromCache st p (some c)).1.callbacks p [] := by
  simp only [getConfigFromCache, assocLookupD, assocLookup_assocSet_self, Option.getD_some]
  exact setAdd_mem _ c

theorem loadZnodesS_callbacks (env : Env) (st : DCState) (path : String)
    (ac : Bool) (choice : Nat) :
    (loadZnodesS env st path ac choice).1.callbacks = st.callbacks := by
  by_cases he : env.zexists path
  · by_cases hl : 0 < (env.zchildren path).length
    · cases ac <;> simp [loadZnodesS, he, hl]
    · cases ac <;> simp [loadZnodesS, he, hl]
  · simp [loadZnodesS, he]

theorem loadZnodesS_none_cache (env : Env) (st : DCState) (path : String)
    (ac : Bool) (choice : Nat)
    (h : (loadZnodesS env st path ac choice).2.2 = none) :
    (loadZnodesS env st path ac choice).1.cache = st.cache := by
  by_cases he : env.zexists path
  · by_cases hl : 0 < (env.zchildren path).length
    · cases ac <;> simp [loadZnodesS, he, hl] at h
    · cases ac <;> simp [loadZnodesS, he, hl]
  · simp [loadZnodesS, he]

theorem loadZnodesS_some_truthy (env : Env) (st : DCState) (path : String)
    (ac : Bool) (choice : Nat) (v : CacheVal)
    (h : (loadZnodesS env st path ac choice).2.2 = some v) :
    v.truthy = true := by
  by_cases he : env.zexists path
  · by_cases hl : 0 < (env.zchildren path).length
    · cases ac <;> simp [loadZnodesS, he, hl] at h <;> rw [← h] <;> rfl
    · cases ac <;> simp [loadZnodesS, he, hl] at h
  · simp [loadZnodesS, he] at h

theorem loadZnodesS_some_lookup (env : Env) (st : DCState) (path : String)
    (ac : Bool) (choice : Nat) (v : CacheVal)
    (h : (loadZnodesS env st path ac choice).2.2 = some v) :
    assocLookup (loadZnodesS env st path ac choice).1.cache path = some v := by
  by_cases he : env.zexists path
  · by_cases hl : 0 < (env.zchildren path).length
    · cases ac <;> simp [loadZnodesS, he, hl] at h ⊢ <;>
        simp [assocLookup_assocSet_self, h]
    · cases ac <;> simp [loadZnodesS, he, hl] at h
  · simp [loadZnodesS, he] at h

theorem loadZnodesS_empty (env : Env) (st : DCState) (path : String)
    (ac : Bool) (choice : Nat)
    (h : env.zexists path = false ∨ env.zchildren path = []) :
    (loadZnodesS env st path ac choice).2.2 = none ∧
      (loadZnodesS env st path ac choice).1.cache = st.cache := by
  by_cases he : env.zexists path
  · have hl : ¬ 0 < (env.zchildren path).length := by
      rcases h with h | h
      · rw [he] at h
        cases h
      · simp [h]
    cases ac <;> simp [loadZnodesS, he, hl]
  · simp [loadZnodesS, he]

theorem loadZnodesS_spec (env : Env) (st : DCState) (path : String)
    (ac : Bool) (choice : Nat)
    (h2 : env.zexists path = true) (h3 : env.zchildren path ≠ []) :
    (loadZnodesS env st path ac choice).2.2 =
      some (CacheVal.single (pickChild env path choice)
        (env.parse (env.zget (path ++ "/" ++ pickChild env path choice)))) := by
  have hlen : 0 < (env.zchildren path).length := List.length_pos.mpr h3
  cases ac <;> simp [loadZnodesS, h2, hlen, pickChild]

theorem pickChild_mem (env : Env) (path : String) (choice : Nat)
    (h3 : env.zchildren path ≠ []) :
    pickChild env path choice ∈ env.zchildren path := by
  have hlen : 0 < (env.zchildren path).length := List.length_pos.mpr h3
  have hmod : choice % (env.zchildren path).length < (env.zchildren path).length :=
    Nat.mod_lt _ hlen
  unfold pickChild
  rw [List.getD_eq_getElem?_getD, List.getElem?_eq_getElem hmod]
  simp only [Option.getD_some]
  exact List.getElem_mem hmod

theorem loadZnodesM_empty (env : Env) (st : DCState) (path : String) (ac : Bool)
    (h : env.zexists path = false ∨ env.zchildren path = []) :
    (loadZnodesM env st path ac).2.2 = none ∧
      (loadZnodesM env st path ac).1.cache = st.cache := by
  by_cases he : env.zexists path
  · have hl : ¬ 0 < (env.zchildren path).length := by
      rcases h with h | h
      · rw [he] at h
        cases h
      · simp [h]
    cases ac <;> simp [loadZnodesM, he, hl]
  · simp [loadZnodesM, he]

theorem callbackEvents_loadZnodesS (env : Env) (st : DCState) (path : String)
    (ac : Bool) (choice : Nat) :
    callbackEvents (loadZnodesS env st path ac choice).2.1 = [] := by
  by_cases he : env.zexists path
  · by_cases hl : 0 < (env.zchildren path).length
    · cases ac <;> simp [loadZnodesS, he, hl, callbackEvents, isCallbackEvent]
    · cases ac <;> simp [loadZnodesS, he, hl, callbackEvents, isCallbackEvent]
  · simp [loadZnodesS, he, callbackEvents, isCallbackEvent]

theorem callbackEvents_map (cbs : List Nat) (path : String) (r : Option CacheVal) :
    callbackEvents (cbs.map (fun c => Event.evCallback c path r)) =
      cbs.map (fun c => Event.evCallback c path r) := by
  unfold callbackEvents
  rw [List.filter_eq_self]
  intro a ha
  rcases List.mem_map.mp ha with ⟨c, _, rfl⟩
  rfl

theorem armEvents_map_callback (cbs : List Nat) (path q : String) (r : Option CacheVal) :
    armEvents (cbs.map (fun c => Event.evCallback c path r)) q = 0 := by
  unfold armEvents
  rw [List.countP_eq_zero]
  intro a ha
  rcases List.mem_map.mp ha with ⟨c, _, rfl⟩
  simp [isArm]

theorem armEvents_map_get (children : List String) (path q : String) :
    armEvents (children.map (fun c => Event.evGet (path ++ "/" ++ c))) q = 0 := by
  unfold armEvents
  rw [List.countP_eq_zero]
  intro a ha
  rcases List.mem_map.mp ha with ⟨c, _, rfl⟩
  simp [isArm]

theorem armEvents_loadZnodesS_false (env : Env) (st : DCState) (path : String)
    (choice : Nat) (q : String) :
    armEvents (loadZnodesS env st path false choice).2.1 q = 0 := by
  by_cases he : env.zexists path
  · by_cases hl : 0 < (env.zchildren path).length <;>
      simp [loadZnodesS, he, hl, armEvents, isArm, List.countP_cons, List.countP_append,
        List.countP_nil]
  · simp [loadZnodesS, he, armEvents, isArm, List.countP_cons, List.countP_nil]

theorem armEvents_loadZnodesS_le (env : Env) (st : DCState) (path : String)
    (ac : Bool) (choice : Nat) (q : String) :
    armEvents (loadZnodesS env st path ac choice).2.1 q ≤ 1 := by
  by_cases he : env.zexists path
  · by_cases hl : 0 < (env.zchildren path).length <;>
      cases ac <;>
      simp [loadZnodesS, he, hl, armEvents, isArm, List.countP_cons, List.countP_append,
        List.countP_nil] <;>
      split <;> simp
  · simp [loadZnodesS, he, armEvents, isArm, List.countP_cons, List.countP_nil]

theorem childCallback_eq (env : Env) (st : DCState) (path : String) (choice : Nat)
    (k : String × String) (hk : znodeToClassAndName path = Except.ok k) :
    childCallback env st path choice =
      ((loadZnodesS env st path false choice).1,
       (loadZnodesS env st path false choice).2.1 ++
         (assocLookupD (loadZnodesS env st path false choice).1.callbacks path []).map
           (fun c => Event.evCallback c path (loadZnodesS env st path false choice).2.2),
       Except.ok ()) := by
  unfold childCallback
  rw [hk]

theorem childCallback_error (env : Env) (st : DCState) (path : String) (choice : Nat)
    (hk : znodeToClassAndName path = Except.error ()) :
    childCallback env st path choice = (st, [], Except.error ()) := by
  unfold childCallback
  rw [hk]

theorem loadConfigS_cacheHit (env : Env) (st : DCState) (sc sn : String)
    (cb : Option Nat) (choice : Nat)
    (h : optTruthy (assocLookup st.cache (znodePath sc sn)) = true) :
    loadConfigS env st sc sn cb choice =
      ((getConfigFromCache st (znodePath sc sn) cb).1, [],
        Except.ok ((assocLookup st.cache (znodePath sc sn)).getD
          (CacheVal.fileSingle Config.cempty))) := by
  simp only [loadConfigS, getConfigFromCache_lookup, h, if_true]

theorem loadConfigM_cacheHit (env : Env) (st : DCState) (sc sn : String)
    (cb : Option Nat)
    (h : optTruthy (assocLookup st.cache (znodePath sc sn)) = true) :
    loadConfigM env st sc sn cb =
      ((getConfigFromCache st (znodePath sc sn) cb).1, [],
        Except.ok ((assocLookup st.cache (znodePath sc sn)).getD
          (CacheVal.fileSingle Config.cempty))) := by
  simp only [loadConfigM, getConfigFromCache_lookup, h, if_true]

/-- C1: the claimed round-trip `store_path_to_key(key_to_store_path(sc, sn)) = (sc, sn)`
fails on the code.  `_znode_to_class_and_name` pops only the empty segment in front of
the leading separator and then takes the first two remaining segments, so the store
path built for ("databases", "knewmena") decodes to ("config", "databases"): the root
segment is returned as the service class and the real service name is dropped. -/
theorem c1_round_trip_code_bug :
    znodeToClassAndName (znodePath "databases" "knewmena") =
      Except.ok ("config", "databases") ∧
    decide (znodeToClassAndName (znodePath "databases" "knewmena") =
      Except.ok ("databases", "knewmena")) = false := by
  decide

/-- C2: on a multi-select instance a watch-fired re-resolution does not behave like
the multi-select cold path.  `_child_callback` lives in the single-select class body,
so Python name-mangling makes its `self.__load_znodes` call resolve to the
single-select loader even on a `DistributedMultiConfig`.  Concretely: with providers
10.0.0.1 and 10.0.0.2 registered, after a watch fires the cache holds one randomly
chosen `(provider, payload)` record and the registered callback receives that single
record — not the ordered two-record sequence the multi-select loader would produce. -/
theorem c2_multi_refire_code_bug :
    assocLookup (childCallback envTwoProviders stMulti samplePath 0).1.cache samplePath =
      some (CacheVal.single "10.0.0.1" (Config.cval "/config/databases/x/10.0.0.1")) ∧
    callbackEvents (childCallback envTwoProviders stMulti samplePath 0).2.1 =
      [Event.evCallback 7 samplePath
        (some (CacheVal.single "10.0.0.1" (Config.cval "/config/databases/x/10.0.0.1")))] ∧
    decide (assocLookup (childCallback envTwoProviders stMulti samplePath 0).1.cache samplePath =
      (loadZnodesM envTwoProviders stMulti samplePath false).2.2) = false := by
  decide

/-- C3 counterexample: when a watch fires and the re-query finds no providers, the
callbacks are invoked with the empty result, but the cache is NOT overwritten — it
still returns the old value, contrary to the claim that "the cache no longer returns
the old value". -/
theorem c3_counterexample :
    assocLookup (childCallback envVanished stMulti samplePath 0).1.cache samplePath =
      some (CacheVal.multi
        [("10.0.0.1", Config.cval "old1"), ("10.0.0.2", Config.cval "old2")]) ∧
    (childCallback envVanished stMulti samplePath 0).2.1 =
      [Event.evExists samplePath, Event.evChildren samplePath,
        Event.evCallback 7 samplePath none] := by
  decide

/-- C4 counterexample: two consecutive `load_config` calls for the same service,
each of which queries the store (the path exists with no children and the file
fallback fails, so nothing is cached), each arm a children watch: the stored handle
in `self.children` is never consulted, so the second store query arms a duplicate. -/
theorem c4_counterexample :
    armEvents (loadConfigS envVanished initState "databases" "x" none 0).2.1 samplePath = 1 ∧
    armEvents (loadConfigS envVanished
      (loadConfigS envVanished initState "databases" "x" none 0).1
      "databases" "x" none 0).2.1 samplePath = 1 := by
  decide

/-- C5 counterexample: registering the same callback (identity 5) twice for the same
path yields ONE registration, because `self.callbacks` holds a set — and on a
watch-fired re-resolution that callback fires exactly once, not once per
registration.  Subscription IS idempotent by identity, contrary to the claim. -/
theorem c5_counterexample :
    (assocLookupD ((getConfigFromCache
        (getConfigFromCache initState samplePath (some 5)).1
        samplePath (some 5)).1).callbacks samplePath []).length = 1 ∧
    callbackEvents (childCallback envTwoProviders
      ((getConfigFromCache (getConfigFromCache initState samplePath (some 5)).1
        samplePath (some 5)).1) samplePath 0).2.1 =
      [Event.evCallback 5 samplePath
        (some (CacheVal.single "10.0.0.1" (Config.cval "/config/databases/x/10.0.0.1")))] := by
  decide

/-- C6 counterexample: a path can be present in the cache with a falsy value (here:
the file fallback returned an empty mapping, which the first call cached), and then
`load_config` does NOT return it immediately: the truthiness test `if cached:` fails
and the store is queried again (an `exists` call is issued). -/
theorem c6_counterexample :
    assocLookup (loadConfigS envEmptyFile initState "databases" "x" none 0).1.cache
      samplePath = some (CacheVal.fileSingle Config.cempty) ∧
    Event.evExists samplePath ∈
      (loadConfigS envEmptyFile
        (loadConfigS envEmptyFile initState "databases" "x" none 0).1
        "databases" "x" none 0).2.1 := by
  decide

/-- C8 counterexample: for `"databases/knewmena.v2.yml"` stripping the trailing
extension `.yml` leaves `databases/knewmena.v2`, so the spec's algorithm returns
`("databases", "knewmena.v2")`; the code instead truncates at the FIRST dot and
returns `("databases", "knewmena")`. -/
theorem c8_counterexample :
    configPathToClassAndName "databases/knewmena.v2.yml" =
      Except.ok ("databases", "knewmena") ∧
    legacyPathToKeySpec "databases/knewmena.v2.yml" =
      Except.ok ("databases", "knewmena.v2") ∧
    decide (configPathToClassAndName "databases/knewmena.v2.yml" =
      legacyPathToKeySpec "databases/knewmena.v2.yml") = false := by
  decide

/-- C8 amended: `_config_path_to_class_and_name` keeps the part of the path before
the FIRST dot (stripping everything from the first dot onward, not merely a trailing
extension), splits the rest on the separator and returns the last two segments,
failing when fewer than two segments remain. -/
theorem c8_first_dot_truncation (path : String) :
    configPathToClassAndName path = legacyPathToKeyAmended path := by
  unfold configPathToClassAndName legacyPathToKeyAmended
  rw [pySplit_headD]
  exact lastTwo_eq_getD _

/-- C3 amended: on watch-fired re-resolution of a well-formed path, every callback
registered for the path is invoked exactly once, in registration order, with the
fresh result; when the re-query found providers the fresh result overwrites the
cache entry, but when it found none the cache retains its previous entry — only the
callbacks observe the empty result. -/
theorem c3_refire_dispatch (env : Env) (st : DCState) (path : String) (choice : Nat)
    (hwf : ∃ k, znodeToClassAndName path = Except.ok k) :
    callbackEvents (childCallback env st path choice).2.1 =
      (assocLookupD st.callbacks path []).map
        (fun c => Event.evCallback c path (loadZnodesS env st path false choice).2.2) ∧
    ((loadZnodesS env st path false choice).2.2 = none →
      (childCallback env st path choice).1.cache = st.cache) ∧
    (∀ v, (loadZnodesS env st path false choice).2.2 = some v →
      assocLookup (childCallback env st path choice).1.cache path = some v) := by
  obtain ⟨k, hk⟩ := hwf
  rw [childCallback_eq env st path choice k hk]
  refine ⟨?_, ?_, ?_⟩
  · rw [loadZnodesS_callbacks]
    unfold callbackEvents
    rw [List.filter_append]
    have h1 := callbackEvents_loadZnodesS env st path false choice
    unfold callbackEvents at h1
    rw [h1, List.nil_append]
    have h2 := callbackEvents_map (assocLookupD st.callbacks path []) path
      (loadZnodesS env st path false choice).2.2
    unfold callbackEvents at h2
    exact h2
  · intro h
    exact loadZnodesS_none_cache env st path false choice h
  · intro v h
    exact loadZnodesS_some_lookup env st path false choice v h

theorem c3_refire_dispatch_witness :
    callbackEvents (childCallback envTwoProviders stMulti samplePath 0).2.1 =
      (assocLookupD stMulti.callbacks samplePath []).map
        (fun c => Event.evCallback c samplePath
          (loadZnodesS envTwoProviders stMulti samplePath false 0).2.2) :=
  (c3_refire_dispatch envTwoProviders stMulti samplePath 0
    ⟨("config", "databases"), by decide⟩).1

/-- C4 amended: each `load_config` call arms at most one watch — on its store query,
and none at all on a cache hit — and watch-fired re-resolution (which passes
`add_callback=False`) never re-arms.  Nothing, however, reads the handle stored in
`self.children`, so a later cache-missing store query for the same path arms a
duplicate watch (see the counterexample theorem). -/
theorem c4_watch_arming (env : Env) (st : DCState) (path : String) (choice : Nat)
    (sc sn : String) (cb : Option Nat) (q : String) :
    armEvents (childCallback env st path choice).2.1 q = 0 ∧
    armEvents (loadConfigS env st sc sn cb choice).2.1 q ≤ 1 ∧
    (optTruthy (assocLookup st.cache (znodePath sc sn)) = true →
      armEvents (loadConfigS env st sc sn cb choice).2.1 q = 0) := by
  refine ⟨?_, ?_, ?_⟩
  · cases hk : znodeToClassAndName path with
    | error e =>
      cases e
      rw [childCallback_error env st path choice hk]
      rfl
    | ok k =>
      rw [childCallback_eq env st path choice k hk]
      unfold armEvents
      rw [List.countP_append]
      have h1 := armEvents_loadZnodesS_false env st path choice q
      unfold armEvents at h1
      have h2 := armEvents_map_callback
        (assocLookupD (loadZnodesS env st path false choice).1.callbacks path []) path q
        (loadZnodesS env st path false choice).2.2
      unfold armEvents at h2
      rw [h1, h2]
  · by_cases hc : optTruthy (getConfigFromCache st (znodePath sc sn) cb).2 = true
    · simp only [loadConfigS, hc, if_true]
      exact Nat.zero_le 1
    · by_cases ht : optTruthy (loadZnodesS env
          (getConfigFromCache st (znodePath sc sn) cb).1 (znodePath sc sn) true choice).2.2 = true
      · simp only [loadConfigS, hc, if_false, ht, if_true]
        exact armEvents_loadZnodesS_le env _ _ true choice q
      · rcases hf : env.fileConfig (sc ++ "/" ++ sn) with e | v <;>
          simp only [loadConfigS, hc, ht, hf, Bool.false_eq_true, if_false] <;>
          · unfold armEvents
            rw [List.countP_append]
            have h1 := armEvents_loadZnodesS_le env
              (getConfigFromCache st (znodePath sc sn) cb).1 (znodePath sc sn) true choice q
            unfold armEvents at h1
            simpa [isArm] using h1
  · intro h
    rw [loadConfigS_cacheHit env st sc sn cb choice h]
    rfl

theorem c4_watch_arming_witness :
    armEvents (childCallback envTwoProviders stMulti samplePath 0).2.1 samplePath = 0 :=
  (c4_watch_arming envTwoProviders stMulti samplePath 0 "databases" "x" none samplePath).1

/-- C5 amended: `self.callbacks` keeps a set per path, so subscribing the same
callback (same identity) twice for the same path leaves exactly the registrations
of a single subscription — subscription IS idempotent by identity — while the
callback is indeed registered after subscribing. -/
theorem c5_subscribe_idempotent (st : DCState) (p : String) (c : Nat) :
    ((getConfigFromCache (getConfigFromCache st p (some c)).1 p (some c)).1).callbacks =
      ((getConfigFromCache st p (some c)).1).callbacks ∧
    c ∈ assocLookupD ((getConfigFromCache st p (some c)).1).callbacks p [] := by
  constructor
  · simp only [getConfigFromCache, assocLookupD, assocLookup_assocSet_self,
      Option.getD_some, setAdd_idem, assocSet_assocSet]
  · exact getConfigFromCache_subscribed st p c

/-- C6 amended: for a path present in the cache with a truthy value, both
`load_config` variants return the cached value with no store-adapter call and no
fallback call at all (the event trace is empty), and a supplied callback is still
subscribed for the path.  (A falsy cached value — possible via an empty fallback
config — is re-queried instead; see the counterexample theorem.) -/
theorem c6_cache_hit (env : Env) (st : DCState) (sc sn : String) (cb : Option Nat)
    (choice : Nat)
    (h : optTruthy (assocLookup st.cache (znodePath sc sn)) = true) :
    (loadConfigS env st sc sn cb choice).2.1 = [] ∧
    (loadConfigS env st sc sn cb choice).2.2 =
      Except.ok ((assocLookup st.cache (znodePath sc sn)).getD
        (CacheVal.fileSingle Config.cempty)) ∧
    (loadConfigM env st sc sn cb).2.1 = [] ∧
    (loadConfigM env st sc sn cb).2.2 =
      Except.ok ((assocLookup st.cache (znodePath sc sn)).getD
        (CacheVal.fileSingle Config.cempty)) ∧
    (∀ c, cb = some c →
      c ∈ assocLookupD (loadConfigS env st sc sn cb choice).1.callbacks
        (znodePath sc sn) []) := by
  rw [loadConfigS_cacheHit env st sc sn cb choice h, loadConfigM_cacheHit env st sc sn cb h]
  refine ⟨rfl, rfl, rfl, rfl, ?_⟩
  intro c hc
  subst hc
  exact getConfigFromCache_subscribed st (znodePath sc sn) c

theorem c6_cache_hit_witness :
    (loadConfigS envTwoProviders stCachedTruthy "databases" "x" (some 3) 0).2.1 = [] :=
  (c6_cache_hit envTwoProviders stCachedTruthy "databases" "x" (some 3) 0 (by decide)).1

/-- C7: for an uncached service key whose store path does not exist or has no
children, `load_config` queries the file fallback with `"service_class/service_name"`,
stores the result in the cache keyed by the store path, and returns it — raw and
unwrapped in the single-select variant, wrapped as the single-element sequence
`[("file", result)]` in the multi-select variant. -/
theorem c7_fallback (env : Env) (st : DCState) (sc sn : String) (cb : Option Nat)
    (choice : Nat) (c : Config)
    (h1 : assocLookup st.cache (znodePath sc sn) = none)
    (h2 : env.zexists (znodePath sc sn) = false ∨ env.zchildren (znodePath sc sn) = [])
    (h3 : env.fileConfig (sc ++ "/" ++ sn) = Except.ok c) :
    (loadConfigS env st sc sn cb choice).2.2 = Except.ok (CacheVal.fileSingle c) ∧
    assocLookup (loadConfigS env st sc sn cb choice).1.cache (znodePath sc sn) =
      some (CacheVal.fileSingle c) ∧
    Event.evFallback (sc ++ "/" ++ sn) ∈ (loadConfigS env st sc sn cb choice).2.1 ∧
    (loadConfigM env st sc sn cb).2.2 = Except.ok (CacheVal.multi [("file", c)]) ∧
    assocLookup (loadConfigM env st sc sn cb).1.cache (znodePath sc sn) =
      some (CacheVal.multi [("file", c)]) := by
  have hpath : (getConfigFromCache st (znodePath sc sn) cb).2 = none := by
    rw [getConfigFromCache_lookup]
    exact h1
  have hempS := loadZnodesS_empty env (getConfigFromCache st (znodePath sc sn) cb).1
    (znodePath sc sn) true choice h2
  have hempM := loadZnodesM_empty env (getConfigFromCache st (znodePath sc sn) cb).1
    (znodePath sc sn) true h2
  refine ⟨?_, ?_, ?_, ?_, ?_⟩ <;>
    simp only [loadConfigS, loadConfigM, hpath, hempS.1, hempM.1, h3, optTruthy,
      Bool.false_eq_true, if_false]
  · rw [assocLookup_assocSet_self]
  · simp [List.mem_append]
  · rw [assocLookup_assocSet_self]

theorem c7_fallback_witness :
    (loadConfigS envFileOk initState "databases" "x" none 0).2.2 =
      Except.ok (CacheVal.fileSingle (Config.cval "databases/x")) :=
  (c7_fallback envFileOk initState "databases" "x" none 0 (Config.cval "databases/x")
    (by decide) (Or.inl (by decide)) (by decide)).1

/-- C9: for an uncached single-select resolution where the store path exists with a
non-empty set of children, the returned record's provider id is one of those child
names, its payload is the parsed value fetched from that child's znode, and the
record is stored in the cache. -/
theorem c9_single_select (env : Env) (st : DCState) (sc sn : String) (cb : Option Nat)
    (choice : Nat)
    (h1 : assocLookup st.cache (znodePath sc sn) = none)
    (h2 : env.zexists (znodePath sc sn) = true)
    (h3 : env.zchildren (znodePath sc sn) ≠ []) :
    ∃ sel, sel ∈ env.zchildren (znodePath sc sn) ∧
      (loadConfigS env st sc sn cb choice).2.2 = Except.ok (CacheVal.single sel
        (env.parse (env.zget (znodePath sc sn ++ "/" ++ sel)))) ∧
      assocLookup (loadConfigS env st sc sn cb choice).1.cache (znodePath sc sn) =
        some (CacheVal.single sel
          (env.parse (env.zget (znodePath sc sn ++ "/" ++ sel)))) := by
  have hpath : (getConfigFromCache st (znodePath sc sn) cb).2 = none := by
    rw [getConfigFromCache_lookup]
    exact h1
  have hspec := loadZnodesS_spec env (getConfigFromCache st (znodePath sc sn) cb).1
    (znodePath sc sn) true choice h2 h3
  refine ⟨pickChild env (znodePath sc sn) choice,
    pickChild_mem env (znodePath sc sn) choice h3, ?_, ?_⟩
  · simp only [loadConfigS, hpath, optTruthy, Bool.false_eq_true, if_false, hspec,
      CacheVal.truthy, if_true, Option.getD_some]
  · simp only [loadConfigS, hpath, optTruthy, Bool.false_eq_true, if_false, hspec,
      CacheVal.truthy, if_true]
    exact loadZnodesS_some_lookup env _ (znodePath sc sn) true choice _ hspec

theorem c9_single_select_witness :
    ∃ sel, sel ∈ envTwoProviders.zchildren (znodePath "databases" "x") ∧
      (loadConfigS envTwoProviders initState "databases" "x" none 0).2.2 =
        Except.ok (CacheVal.single sel (envTwoProviders.parse
          (envTwoProviders.zget (znodePath "databases" "x" ++ "/" ++ sel)))) ∧
      assocLookup (loadConfigS envTwoProviders initState "databases" "x" none 0).1.cache
        (znodePath "databases" "x") = some (CacheVal.single sel (envTwoProviders.parse
          (envTwoProviders.zget (znodePath "databases" "x" ++ "/" ++ sel)))) :=
  c9_single_select envTwoProviders initState "databases" "x" none 0
    (by decide) (by decide) (by decide)

/-- C10: a callback passed to `load_config` is registered before any store or
fallback query (the callback registration equals the one made by the initial cache
lookup, which precedes every query), and when the resolution fails the registration
survives while the cache is left unchanged. -/
theorem c10_callback_survives_failure (env : Env) (st : DCState) (sc sn : String)
    (c : Nat) (choice : Nat)
    (h : (loadConfigS env st sc sn (some c) choice).2.2 = Except.error ()) :
    c ∈ assocLookupD (loadConfigS env st sc sn (some c) choice).1.callbacks
      (znodePath sc sn) [] ∧
    (loadConfigS env st sc sn (some c) choice).1.cache = st.cache ∧
    (loadConfigS env st sc sn (some c) choice).1.callbacks =
      (getConfigFromCache st (znodePath sc sn) (some c)).1.callbacks := by
  by_cases hc : optTruthy (getConfigFromCache st (znodePath sc sn) (some c)).2 = true
  · exfalso
    have hhit := loadConfigS_cacheHit env st sc sn (some c) choice
      (by rwa [getConfigFromCache_lookup] at hc)
    rw [hhit] at h
    cases h
  · by_cases ht : optTruthy (loadZnodesS env
        (getConfigFromCache st (znodePath sc sn) (some c)).1
        (znodePath sc sn) true choice).2.2 = true
    · exfalso
      simp only [loadConfigS, hc, Bool.false_eq_true, if_false, ht, if_true] at h
      exact Except.noConfusion h
    · have hnone : (loadZnodesS env (getConfigFromCache st (znodePath sc sn) (some c)).1
          (znodePath sc sn) true choice).2.2 = none := by
        cases hl : (loadZnodesS env (getConfigFromCache st (znodePath sc sn) (some c)).1
            (znodePath sc sn) true choice).2.2 with
        | none => rfl
        | some v =>
          exfalso
          apply ht
          rw [hl]
          show optTruthy (some v) = true
          have hv := loadZnodesS_some_truthy env
            (getConfigFromCache st (znodePath sc sn) (some c)).1
            (znodePath sc sn) true choice v hl
          simp [optTruthy, hv]
      rcases hf : env.fileConfig (sc ++ "/" ++ sn) with e | v
      · refine ⟨?_, ?_, ?_⟩ <;>
          simp only [loadConfigS, hc, ht, hf, Bool.false_eq_true, if_false]
        · rw [loadZnodesS_callbacks]
          exact getConfigFromCache_subscribed st (znodePath sc sn) c
        · rw [loadZnodesS_none_cache env _ (znodePath sc sn) true choice hnone]
          exact getConfigFromCache_cache st (znodePath sc sn) (some c)
        · exact loadZnodesS_callbacks env _ (znodePath sc sn) true choice
      · exfalso
        simp only [loadConfigS, hc, ht, hf, Bool.false_eq_true, if_false] at h
        exact Except.noConfusion h

theorem c10_callback_survives_failure_witness :
    5 ∈ assocLookupD
      (loadConfigS envVanished initState "databases" "x" (some 5) 0).1.callbacks
      (znodePath "databases" "x") [] :=
  (c10_callback_survives_failure envVanished initState "databases" "x" 5 0 (by decide)).1

end PettingZoo
